import Mathlib

/-!
# NovaTrace — Classification Data & Analytics Pipeline, shallow embedding

This file embeds the pure data transformations of the NovaTrace frontend
(`DataExploration.tsx`, `PlanetSystem3D.tsx`, `ClassificationResults`,
`DownloadButton.tsx` and their embedded variants) and proves properties of
them.

Modelling conventions:
* A table row is a record of optional cells.  Numeric-valued columns are an
  association list `cells : List (String × Option ℚ)`; a missing key, a
  `null` cell and a cell whose `parseFloat` is `NaN` are all modelled as the
  absence of a value (`none`), exactly the values that the statistics code
  filters out with `!isNaN(v)`.  The disposition-bearing string columns
  (`Predicted_Disposition`, `koi_disposition`, `Classification`,
  `kepoi_name`, `id`) are separate `Option String` fields.
* JavaScript `x || y` (truthiness: `null`/`undefined`/`0`/`""` are falsy)
  and `x ?? y` (nullish only) are modelled by distinct helpers.
* JavaScript floating-point numbers are modelled by `ℚ`; the special values
  produced by `x / 0` are modelled explicitly by `JsNum`
  (`NaN`, `Infinity`, `-Infinity`).
* `Math.random()` is modelled by an explicit stream `rand : ℕ → ℚ` of the
  successive values it returns; the i-th mapped row consumes `rand i`.
-/

namespace NovaTrace

/-- A table row: numeric cells as an association list plus the string-valued
disposition / naming columns used by the components. -/
structure Row where
  cells : List (String × Option ℚ)
  disp : Option String
  koiDisp : Option String
  classif : Option String
  kname : Option String
  rid : Option String
deriving DecidableEq

/-- Models `parseFloat(r[col])` restricted to numeric-or-missing cells: the numeric
value of column `col` in row `r`, `none` when the key is absent, the cell is
`null`, or the cell does not parse to a number. -/
def getNum (r : Row) (col : String) : Option ℚ :=
  (r.cells.lookup col).join

/-- Models `s.toUpperCase()`: character-wise upper-casing (all the tokens the
pipeline compares are ASCII). -/
def strUpper (s : String) : String :=
  ⟨s.data.map Char.toUpper⟩

/-- JavaScript `o || d` on a string-valued expression: `null`/`undefined` and
the empty string are falsy. -/
def jsOrStr (o : Option String) (d : String) : String :=
  match o with
  | none => d
  | some s => if s = "" then d else s

/-- JavaScript `a ?? b` on two optional values (nullish coalescing). -/
def jsCoalesce {α : Type} (a b : Option α) : Option α :=
  match a with
  | none => b
  | some x => some x

/-- JavaScript `a || b` on two numeric-or-missing cells: a present `0` is
falsy and falls through to `b`. -/
def jsOrNum (a b : Option ℚ) : Option ℚ :=
  match a with
  | none => b
  | some q => if q = 0 then b else some q

/-- A JavaScript number that may be one of the non-finite special values. -/
inductive JsNum where
  | num (q : ℚ)
  | nan
  | inf
  | neginf
deriving DecidableEq

/-- JavaScript division `a / b` of finite numbers: division by zero yields
`NaN` for `0 / 0` and a signed infinity otherwise. -/
def jsDiv (a b : ℚ) : JsNum :=
  if b = 0 then (if a = 0 then .nan else if 0 < a then .inf else .neginf)
  else .num (a / b)

/-- JavaScript multiplication of a (possibly non-finite) number by a finite
constant; `Infinity * 0` is `NaN`. -/
def jsMulC (x : JsNum) (c : ℚ) : JsNum :=
  match x with
  | .num q => .num (q * c)
  | .nan => .nan
  | .inf => if c = 0 then .nan else if 0 < c then .inf else .neginf
  | .neginf => if c = 0 then .nan else if 0 < c then .neginf else .inf

/-! ## Classification aggregation

`DataExploration.tsx`, `stats.dispositions`:
`String(row.Predicted_Disposition || "Unknown").toUpperCase()` is the key of
an accumulator object whose value is incremented once per row.

`ClassificationResults` (src/unnamed/part_003), `dispositionCounts`: a
three-key record `{CONFIRMED: 0, CANDIDATE: 0, "FALSE POSITIVE": 0}` whose
entry is incremented only when the row's uppercased token is one of those
three keys (`if (d in counts) counts[d]++`).
-/

/-- The disposition key of a row in `stats.dispositions`. -/
def dispKey (r : Row) : String :=
  strUpper (jsOrStr r.disp "Unknown")

/-- The distinct disposition keys occurring in the table (the keys of the
`stats.dispositions` accumulator object). -/
def dispositionKeys (rows : List Row) : List String :=
  (rows.map dispKey).dedup

/-- The count stored under key `k` in `stats.dispositions`. -/
def dispositionCount (rows : List Row) (k : String) : ℕ :=
  (rows.map dispKey).count k

/-- The sum of all per-key counts of `stats.dispositions`. -/
def dispositionsTotal (rows : List Row) : ℕ :=
  ((dispositionKeys rows).map (dispositionCount rows)).sum

/-- The uppercased token `String(row.Predicted_Disposition || "").toUpperCase()`
used by `ClassificationResults`. -/
def dispKeyP3 (r : Row) : String :=
  strUpper (jsOrStr r.disp "")

/-- The three-label counter of `ClassificationResults.dispositionCounts`. -/
structure DispCounts where
  confirmed : ℕ
  candidate : ℕ
  falsePositive : ℕ
deriving DecidableEq

/-- Models `dispositionCounts` from `ClassificationResults`: each row increments the
entry matching its token, and rows whose token matches none of the three
fixed keys increment nothing. -/
def dispositionCounts (rows : List Row) : DispCounts :=
  ⟨rows.countP (fun r => decide (dispKeyP3 r = "CONFIRMED")),
   rows.countP (fun r => decide (dispKeyP3 r = "CANDIDATE")),
   rows.countP (fun r => decide (dispKeyP3 r = "FALSE POSITIVE"))⟩

/-- The sum of the three entries of `dispositionCounts`. -/
def dispTotalP3 (c : DispCounts) : ℕ :=
  c.confirmed + c.candidate + c.falsePositive

/-- A row whose token is one of the three keys tracked by
`dispositionCounts`. -/
def recognizedP3 (r : Row) : Bool :=
  decide (dispKeyP3 r = "CONFIRMED") || decide (dispKeyP3 r = "CANDIDATE") ||
    decide (dispKeyP3 r = "FALSE POSITIVE")

/-- Models `filteredRows` of `ClassificationResults`: the rows whose uppercased
token equals the selected disposition, in original order. -/
def filteredRows (rows : List Row) (selected : String) : List Row :=
  rows.filter (fun r => decide (dispKeyP3 r = selected))

/-- The count displayed for one of the three summary cards, as a function of
the label key (`Object.entries(dispositionCounts)` values). -/
def countFor (rows : List Row) (label : String) : ℕ :=
  rows.countP (fun r => decide (dispKeyP3 r = label))

/-- The percentage computed by `ClassificationResults`:
`(count / data.rows.length) * 100` in JavaScript arithmetic (no guard
against a zero row count). -/
def percentage (rows : List Row) (label : String) : JsNum :=
  jsMulC (jsDiv (countFor rows label) rows.length) 100

/-! ## Label canonicalization (`color` in `DataExploration.tsx`) -/

/-- The body of the `color` arrow function: a `switch` on the uppercased
token. -/
def colorStr (disp : String) : String :=
  if strUpper disp = "CP" ∨ strUpper disp = "CONFIRMED" then "#10b981"
  else if strUpper disp = "PC" ∨ strUpper disp = "CANDIDATE" then "#facc15"
  else if strUpper disp = "FP" ∨ strUpper disp = "FALSE POSITIVE" then "#ef4444"
  else "#94a3b8"

/-- Models `color(disp)` including the defensive `(disp || "")`. -/
def color (disp : Option String) : String :=
  colorStr (jsOrStr disp "")

/-- The four classification labels. -/
inductive ClassificationLabel where
  | CONFIRMED
  | CANDIDATE
  | FALSE_POSITIVE
  | UNKNOWN
deriving DecidableEq

open ClassificationLabel in
/-- The evident bijection between the four colour codes returned by `color`
and the four classification labels (green ↔ CONFIRMED, yellow ↔ CANDIDATE,
red ↔ FALSE_POSITIVE, slate ↔ UNKNOWN). -/
def labelOfColor (c : String) : ClassificationLabel :=
  if c = "#10b981" then CONFIRMED
  else if c = "#facc15" then CANDIDATE
  else if c = "#ef4444" then FALSE_POSITIVE
  else UNKNOWN

/-- Label canonicalization as realized by the repository: the label whose
colour class `color` assigns to the token. -/
def canonicalize (t : Option String) : ClassificationLabel :=
  labelOfColor (color t)

/-! ## Statistics engine (`DataExploration.tsx`)

`stats.columns`: for each column of a fixed list, take the `parseFloat` of
every row's cell, drop `NaN`, sort ascending, and record
`{min: vals[0], max: vals[vals.length-1], mean, median: vals[⌊n/2⌋],
count: n}`; a column whose filtered list is empty is skipped.
-/

/-- The fixed column list of `stats.columns`. -/
def numericColsDE : List String :=
  ["koi_period", "pl_orbper", "koi_prad", "pl_rade", "koi_depth",
   "koi_teff", "st_teff", "pl_trandep"]

/-- The `NaN`-filtered numeric values of column `col`, in row order
(`data.rows.map(r => parseFloat(r[col])).filter(v => !isNaN(v))`). -/
def colValsRaw (rows : List Row) (col : String) : List ℚ :=
  (rows.map (fun r => getNum r col)).filterMap id

/-- The filtered values sorted ascending (`.sort((a, b) => a - b)`). -/
def colVals (rows : List Row) (col : String) : List ℚ :=
  (colValsRaw rows col).insertionSort (· ≤ ·)

/-- One per-column summary record. -/
structure ColStat where
  min : ℚ
  max : ℚ
  mean : ℚ
  median : ℚ
  count : ℕ
deriving DecidableEq

/-- The summary of one column, or `none` when no value survives the filter
(the column is then omitted from the accumulator): over the sorted values,
`min = vals[0]`, `max = vals[vals.length - 1]`, `mean = sum / n`,
`median = vals[⌊n / 2⌋]`, `count = n`. -/
def columnSummary (rows : List Row) (col : String) : Option ColStat :=
  if (colVals rows col).length = 0 then none
  else some ⟨(colVals rows col).getD 0 0,
             (colVals rows col).getD ((colVals rows col).length - 1) 0,
             (colVals rows col).sum / ((colVals rows col).length : ℚ),
             (colVals rows col).getD ((colVals rows col).length / 2) 0,
             (colVals rows col).length⟩

/-- Models `stats.columns`: the summaries of the fixed column list, keyed by column
name, with empty columns omitted. -/
def statsColumns (rows : List Row) : List (String × ColStat) :=
  numericColsDE.filterMap (fun col => (columnSummary rows col).map (fun s => (col, s)))

/-! ### Histogram (`HistogramChart` in `DataExploration.tsx`)

`periods`: `parseFloat(r.period ?? "")` filtered by `!isNaN(v) && v > 0`,
sorted ascending.  `bins = max(5, round(sqrt(n)))`,
`width = (max - min) / bins || 1`, a value lands in bin
`min(bins - 1, ⌊(v - min) / width⌋)`.
-/

/-- The filtered, sorted period values used by the histogram. -/
def periodVals (rows : List Row) : List ℚ :=
  (((rows.map (fun r => getNum r "period")).filterMap id).filter
    (fun v => decide (0 < v))).insertionSort (· ≤ ·)

/-- Models `Math.round(Math.sqrt(n))` for a natural number `n` (exact-real
semantics: the nearest integer to `√n`; halves cannot occur). -/
def roundSqrt (n : ℕ) : ℕ :=
  let m := Nat.sqrt n
  if m * m + m < n then m + 1 else m

/-- Models `bins = Math.max(5, Math.round(Math.sqrt(periods.length)))`. -/
def histBinCount (rows : List Row) : ℕ :=
  max 5 (roundSqrt (periodVals rows).length)

/-- Models `min = periods[0]`. -/
def histMin (rows : List Row) : ℚ :=
  (periodVals rows).getD 0 0

/-- Models `max = periods[periods.length - 1]`. -/
def histMax (rows : List Row) : ℚ :=
  (periodVals rows).getD ((periodVals rows).length - 1) 0

/-- Models `width = (max - min) / bins || 1`: a zero quotient (degenerate range) is
falsy and replaced by `1`. -/
def histWidth (rows : List Row) : ℚ :=
  if (histMax rows - histMin rows) / (histBinCount rows : ℚ) = 0 then 1
  else (histMax rows - histMin rows) / (histBinCount rows : ℚ)

/-- The bin index `Math.min(bins - 1, Math.floor((v - min) / width))` of a
value. -/
def binIdx (rows : List Row) (v : ℚ) : ℕ :=
  min (histBinCount rows - 1) (Int.toNat ⌊(v - histMin rows) / histWidth rows⌋)

/-- The per-bin counts of the histogram. -/
def histCounts (rows : List Row) : List ℕ :=
  (List.range (histBinCount rows)).map
    (fun i => (periodVals rows).countP (fun v => decide (binIdx rows v = i)))

/-- The histogram, or `none` when no period survives the filter (the
component renders "No valid orbital data" instead). -/
def histogramOpt (rows : List Row) : Option (List ℕ) :=
  if (periodVals rows).length = 0 then none else some (histCounts rows)

/-! ### Scatter plot (`ScatterPlot` in `DataExploration.tsx`)

`x = parseFloat(r.period ?? "")`, `y = parseFloat(r.radius ?? r.depth ?? "")`,
`disp = String(r.Predicted_Disposition ?? r.koi_disposition ?? "UNKNOWN")
.toUpperCase()`; points with a `NaN` coordinate are dropped.
`maxX = Math.max(...xs, 1)`, `maxY = Math.max(...ys, 1)`; a point is drawn
at horizontal offset `(p.x / maxX) * plot.width` from the axis.
-/

/-- The disposition string attached to a scatter point. -/
def dispScatter (r : Row) : String :=
  strUpper ((jsCoalesce r.disp r.koiDisp).getD "UNKNOWN")

/-- The retained scatter points `(x, y, disp)` of the table, in row order. -/
def scatterPts (rows : List Row) : List (ℚ × ℚ × String) :=
  (rows.map (fun r =>
      (getNum r "period", jsCoalesce (getNum r "radius") (getNum r "depth"),
       dispScatter r))).filterMap
    (fun p => match p with
      | (some x, some y, d) => some (x, y, d)
      | _ => none)

/-- Models `maxX = Math.max(...scatter.map(d => d.x), 1)`. -/
def scatterMaxX (rows : List Row) : ℚ :=
  ((scatterPts rows).map (fun p => p.1)).foldr max 1

/-- Models `maxY = Math.max(...scatter.map(d => d.y), 1)`. -/
def scatterMaxY (rows : List Row) : ℚ :=
  ((scatterPts rows).map (fun p => p.2.1)).foldr max 1

/-- The normalized horizontal offset `(p.x / maxX) * plot.width` of a point,
in JavaScript arithmetic. -/
def scatterNormX (rows : List Row) (p : ℚ × ℚ × String) : JsNum :=
  jsMulC (jsDiv p.1 (scatterMaxX rows)) 320

/-- The normalized vertical offset `(p.y / maxY) * plot.height` of a point,
in JavaScript arithmetic. -/
def scatterNormY (rows : List Row) (p : ℚ × ℚ × String) : JsNum :=
  jsMulC (jsDiv p.2.1 (scatterMaxY rows)) 180

/-! ### The `DownloadButton.tsx` file's embedded variants

`scatterData`: `parseFloat(row.koi_period || row["Period (days)"])` and
`parseFloat(row.koi_prad || row["Radius (R⊕)"])` (truthy fallback, so a
present `0` falls through), `NaN` points dropped;
`maxX = scatterData.length > 0 ? Math.max(...) : 0` — no floor of 1.

`histogramData`: values of `koi_period` filtered by `!isNaN && val > 0`,
sorted; `bins = 20`, `binWidth = (max - min) / bins` — no `|| 1` guard —
and `binIndex = Math.min(bins - 1, Math.floor((period - min) / binWidth))`.
-/

/-- The disposition of a `scatterData` point:
`row.Predicted_Disposition || row.Classification`. -/
def dispDL (r : Row) : Option String :=
  match r.disp with
  | none => r.classif
  | some s => if s = "" then r.classif else some s

/-- The retained points of `scatterData`. -/
def scatterDataDL (rows : List Row) : List (ℚ × ℚ × Option String) :=
  (rows.map (fun r =>
      (jsOrNum (getNum r "koi_period") (getNum r "Period (days)"),
       jsOrNum (getNum r "koi_prad") (getNum r "Radius (R⊕)"),
       dispDL r))).filterMap
    (fun p => match p with
      | (some x, some y, d) => some (x, y, d)
      | _ => none)

/-- Models `Math.max` over a non-empty spread of values. -/
def listMax : List ℚ → ℚ
  | [] => 0
  | x :: xs => xs.foldl max x

/-- Models `maxX = scatterData.length > 0 ? Math.max(...scatterData.map(d => d.x)) : 0`. -/
def scatterMaxXDL (rows : List Row) : ℚ :=
  if 0 < (scatterDataDL rows).length
  then listMax ((scatterDataDL rows).map (fun p => p.1)) else 0

/-- The normalized horizontal fraction `point.x / maxX` of a `scatterData`
point, in JavaScript arithmetic (`0 / 0` is `NaN`). -/
def scatterNormXDL (rows : List Row) (p : ℚ × ℚ × Option String) : JsNum :=
  jsDiv p.1 (scatterMaxXDL rows)

/-- Models `validPeriods` of `histogramData`: the positive finite `koi_period`
values, sorted ascending. -/
def validPeriods20 (rows : List Row) : List ℚ :=
  (((rows.map (fun r => getNum r "koi_period")).filterMap id).filter
    (fun v => decide (0 < v))).insertionSort (· ≤ ·)

/-- Models `min = validPeriods[0]`. -/
def min20 (rows : List Row) : ℚ :=
  (validPeriods20 rows).getD 0 0

/-- Models `binWidth = (max - min) / 20`, with no degenerate-range guard. -/
def binWidth20 (rows : List Row) : ℚ :=
  ((validPeriods20 rows).getD ((validPeriods20 rows).length - 1) 0 - min20 rows) / 20

/-- The bin index of a value in `histogramData`: when `binWidth` is `0` the
JavaScript expression `Math.min(19, Math.floor((v - min) / 0))` evaluates to
`NaN` (modelled `none`) and `histogram[NaN]++` increments no bin. -/
def binIdx20 (rows : List Row) (v : ℚ) : Option ℕ :=
  if binWidth20 rows = 0 then none
  else some (min 19 (Int.toNat ⌊(v - min20 rows) / binWidth20 rows⌋))

/-- The per-bin counts of `histogramData`. -/
def hist20Counts (rows : List Row) : List ℕ :=
  (List.range 20).map
    (fun i => (validPeriods20 rows).countP (fun v => decide (binIdx20 rows v = some i)))

/-- Models `histogramData`: `[]` when no value survives the filter, otherwise the
twenty `{binStart, binEnd, count}` records. -/
def histogramData20 (rows : List Row) : List (ℚ × ℚ × ℕ) :=
  if (validPeriods20 rows).length = 0 then []
  else (List.range 20).map
    (fun (i : ℕ) => (min20 rows + (i : ℚ) * binWidth20 rows,
               min20 rows + ((i : ℚ) + 1) * binWidth20 rows,
               (validPeriods20 rows).countP (fun v => decide (binIdx20 rows v = some i))))

/-! ## Orbital projection (`systemConfig` in `PlanetSystem3D.tsx`)

`filtered = rows.filter(r => String(r.Predicted_Disposition || "")
.toUpperCase() === disposition)`; the first 8 filtered rows are mapped to
planet configurations.  `Math.pow(period, 0.3)` is real-valued, so the
projected geometry lives in `ℝ` (the source only ever feeds it positive
periods; a present `0` is falsy and takes the fallback branch). -/

/-- One projected orbital body. -/
structure Planet where
  orbitalRadius : ℝ
  planetRadius : ℚ
  color : String
  speed : ℚ
  name : String

/-- Models `row.koi_prad ?? row.pl_rade ?? null`. -/
def pradOf (r : Row) : Option ℚ :=
  jsCoalesce (getNum r "koi_prad") (getNum r "pl_rade")

/-- Models `row.koi_period ?? row.pl_orbper ?? null`. -/
def periodOf (r : Row) : Option ℚ :=
  jsCoalesce (getNum r "koi_period") (getNum r "pl_orbper")

/-- Models `planetRadius = prad ? Math.max(0.08, Number(prad) * 0.05) : 0.12`:
truthiness, so a present `0` (like a missing value) yields the default
`0.12`. -/
def bodyRadiusOf (prad : Option ℚ) : ℚ :=
  match prad with
  | none => 0.12
  | some q => if q = 0 then 0.12 else max 0.08 (q * 0.05)

/-- Models `orbitalRadius = period ? 1.8 + Math.pow(Number(period), 0.3)
: 3 + i * 1.8`: truthiness again, so a present `0` takes the index-based
fallback. -/
noncomputable def orbitalRadiusOf (period : Option ℚ) (i : ℕ) : ℝ :=
  match period with
  | none => 3 + (i : ℝ) * 1.8
  | some q => if q = 0 then 3 + (i : ℝ) * 1.8 else 1.8 + (q : ℝ) ^ (0.3 : ℝ)

/-- The planet configuration built from the `i`-th filtered row; `rand i` is
the value returned by the `i`-th call of `Math.random()` during this
invocation. -/
noncomputable def mkPlanet (disposition : String) (rand : ℕ → ℚ) (i : ℕ)
    (row : Row) : Planet :=
  { orbitalRadius := orbitalRadiusOf (periodOf row) i
    planetRadius := bodyRadiusOf (pradOf row)
    color := if disposition = "CONFIRMED" then "#3b82f6" else "#8b5cf6"
    speed := 0.25 + rand i * 0.7
    name := ((jsCoalesce row.kname row.rid).getD s!"Planet-{i + 1}") }

/-- Models `systemConfig.planets`: the first 8 rows matching the selected
disposition, mapped with their index. -/
noncomputable def projectPlanets (rows : List Row) (disposition : String)
    (rand : ℕ → ℚ) : List Planet :=
  ((filteredRows rows disposition).take 8).enum.map
    (fun p => mkPlanet disposition rand p.1 p.2)

/-! ## Concrete tables used by the scenario theorems -/

/-- A single row whose disposition token is unrecognized. -/
def rowUnknownTok : Row := ⟨[], some "exploded", none, none, none, none⟩

/-- A single-row table classified `CONFIRMED`, with no physical features. -/
def rowsOneConfirmed : List Row := [⟨[], some "CONFIRMED", none, none, none, none⟩]

/-- An unclassified row carrying only a `koi_period` cell. -/
def rowKP (q : ℚ) : Row := ⟨[("koi_period", some q)], none, none, none, none, none⟩

/-- An unclassified row carrying only a `period` cell. -/
def rowPer (q : ℚ) : Row := ⟨[("period", some q)], none, none, none, none, none⟩

/-- An unclassified row carrying equal `period` and `koi_period` cells. -/
def rowPK (q : ℚ) : Row :=
  ⟨[("period", some q), ("koi_period", some q)], none, none, none, none, none⟩

/-- Scenario B's column `[1,2,3,4,5]`, uploaded out of order. -/
def rows5 : List Row := [rowKP 3, rowKP 1, rowKP 5, rowKP 2, rowKP 4]

/-- A table whose `period` column is `[2, 5, -3]`. -/
def rowsH : List Row := [rowPer 2, rowPer 5, rowPer (-3)]

/-- A table whose `period` and `koi_period` columns are both `[-1, 2]`. -/
def rowsPK : List Row := [rowPK (-1), rowPK 2]

/-- Scenario C's degenerate column `[10, 10, 10]` under the `period` key. -/
def rows10 : List Row := [rowPer 10, rowPer 10, rowPer 10]

/-- Scenario C's degenerate column `[10, 10, 10]` under the `koi_period` key. -/
def rows10k : List Row := [rowKP 10, rowKP 10, rowKP 10]

/-! ## Helper lemmas -/

/-- Evaluation lemma: `jsOrStr (some s) "" = s` (`s || ""` is `s` whether or not `s` is empty). -/
theorem jsOrStr_some_empty (s : String) : jsOrStr (some s) "" = s := by
  by_cases h : s = "" <;> simp [jsOrStr, h]

/-- The function `colorStr` only reads the uppercased token. -/
theorem colorStr_congr {s₁ s₂ : String} (h : strUpper s₁ = strUpper s₂) :
    colorStr s₁ = colorStr s₂ := by
  unfold colorStr
  rw [h]

/-- Summing the indicator of `k` over `range n` gives `1` when `k < n`. -/
theorem sum_range_indicator (n k : ℕ) (h : k < n) :
    ((List.range n).map (fun i => if k = i then (1 : ℕ) else 0)).sum = 1 := by
  induction n with
  | zero => omega
  | succ n ih =>
    rw [List.range_succ, List.map_append, List.sum_append]
    rcases Nat.lt_succ_iff_lt_or_eq.1 h with h' | rfl
    · have hlast : (if k = n then (1 : ℕ) else 0) = 0 := by
        simp
        omega
      simp [ih h', hlast]
    · have hzero :
          ((List.range k).map (fun i => if k = i then (1 : ℕ) else 0)).sum = 0 := by
        apply List.sum_eq_zero
        intro x hx
        rcases List.mem_map.1 hx with ⟨i, hi, rfl⟩
        have := List.mem_range.1 hi
        simp
        omega
      simp [hzero]

/-- A map of a pointwise sum sums to the sum of the two mapped sums. -/
theorem sum_map_add_nat {α : Type} (l : List α) (f g : α → ℕ) :
    (l.map (fun x => f x + g x)).sum = (l.map f).sum + (l.map g).sum := by
  induction l with
  | nil => rfl
  | cons a l ih =>
    simp [ih]
    omega

/-- Binning every element of a list into one of `n` classes and summing the
class counts recovers the length of the list. -/
theorem sum_range_countP {α : Type} (l : List α) (f : α → ℕ) (n : ℕ)
    (h : ∀ v ∈ l, f v < n) :
    ((List.range n).map (fun i => l.countP (fun v => decide (f v = i)))).sum
      = l.length := by
  induction l with
  | nil => simp
  | cons a l ih =>
    have ha : f a < n := h a (by simp)
    have hl : ∀ v ∈ l, f v < n := fun v hv => h v (by simp [hv])
    simp only [List.countP_cons, decide_eq_true_eq]
    rw [sum_map_add_nat, ih hl, sum_range_indicator n (f a) ha,
      List.length_cons]

/-- In a `≤`-sorted list the first element bounds every member from below. -/
theorem sorted_getD_zero_le {l : List ℚ} (hs : l.Sorted (· ≤ ·)) {x : ℚ}
    (hx : x ∈ l) : l.getD 0 0 ≤ x := by
  obtain ⟨j, rfl⟩ := List.mem_iff_get.1 hx
  have h0 : 0 < l.length := lt_of_le_of_lt (Nat.zero_le _) j.isLt
  rw [List.getD_eq_getElem _ _ h0]
  have hle : (⟨0, h0⟩ : Fin l.length) ≤ j := Fin.le_def.mpr (Nat.zero_le _)
  simpa [List.get_eq_getElem] using hs.rel_get_of_le hle

/-- In a `≤`-sorted list the last element bounds every member from above. -/
theorem le_sorted_getD_last {l : List ℚ} (hs : l.Sorted (· ≤ ·)) {x : ℚ}
    (hx : x ∈ l) : x ≤ l.getD (l.length - 1) 0 := by
  obtain ⟨j, rfl⟩ := List.mem_iff_get.1 hx
  have h0 : 0 < l.length := lt_of_le_of_lt (Nat.zero_le _) j.isLt
  have hlt : l.length - 1 < l.length := Nat.sub_lt h0 one_pos
  rw [List.getD_eq_getElem _ _ hlt]
  have hle : j ≤ (⟨l.length - 1, hlt⟩ : Fin l.length) := by
    rw [Fin.le_def]
    have := j.isLt
    simp only []
    omega
  simpa [List.get_eq_getElem] using hs.rel_get_of_le hle

/-- An in-range `getD` is a member of the list. -/
theorem getD_mem_of_lt {l : List ℚ} {i : ℕ} (h : i < l.length) :
    l.getD i 0 ∈ l := by
  rw [List.getD_eq_getElem _ _ h]
  exact List.getElem_mem h

/-- An initial accumulator bounds a `foldr max` from below. -/
theorem le_foldr_max {l : List ℚ} {d : ℚ} : d ≤ l.foldr max d := by
  induction l with
  | nil => exact le_refl d
  | cons a l ih => exact le_trans ih (le_max_right a _)

/-- The sorted column values are a permutation of the filtered ones. -/
theorem colVals_perm (rows : List Row) (col : String) :
    List.Perm (colVals rows col) (colValsRaw rows col) :=
  List.perm_insertionSort _ _

/-- The sorted column values are sorted. -/
theorem colVals_sorted (rows : List Row) (col : String) :
    (colVals rows col).Sorted (· ≤ ·) :=
  List.sorted_insertionSort _ _

/-- The sum of the three entries of `dispositionCounts` counts exactly the
rows carrying one of the three recognized tokens. -/
theorem dispTotalP3_eq_countP (rows : List Row) :
    dispTotalP3 (dispositionCounts rows) = rows.countP recognizedP3 := by
  induction rows with
  | nil => rfl
  | cons r rs ih =>
    simp only [dispositionCounts, dispTotalP3, List.countP_cons,
      recognizedP3] at ih ⊢
    by_cases h1 : dispKeyP3 r = "CONFIRMED" <;>
      by_cases h2 : dispKeyP3 r = "CANDIDATE" <;>
        by_cases h3 : dispKeyP3 r = "FALSE POSITIVE" <;>
          simp_all <;> omega

/-! ## C8: the per-column summary statistic -/

/-- C8 (confirmed).  An empty filtered column is omitted from
`stats.columns`; a non-empty one reports `count` = filtered length,
`min`/`max` the least/greatest filtered value (the sorted ends), `mean` the
arithmetic mean, and `median` the sorted value at index `⌊n/2⌋`
(non-interpolated); on the column `[1,2,3,4,5]` this yields
`min = 1, max = 5, mean = 3, median = 3, count = 5`. -/
theorem columnSummary_spec (rows : List Row) (col : String) :
    (colValsRaw rows col = [] → columnSummary rows col = none ∧
      col ∉ (statsColumns rows).map Prod.fst) ∧
    (∀ s : ColStat, columnSummary rows col = some s →
      s.count = (colValsRaw rows col).length ∧
      s.min ∈ colValsRaw rows col ∧ s.max ∈ colValsRaw rows col ∧
      s.median ∈ colValsRaw rows col ∧
      (∀ x ∈ colValsRaw rows col, s.min ≤ x ∧ x ≤ s.max) ∧
      s.mean = (colValsRaw rows col).sum / ((colValsRaw rows col).length : ℚ) ∧
      s.median = (colVals rows col).getD ((colValsRaw rows col).length / 2) 0) ∧
    columnSummary rows5 "koi_period" = some ⟨1, 5, 3, 3, 5⟩ := by
  have hperm := colVals_perm rows col
  have hsorted := colVals_sorted rows col
  have hlen : (colVals rows col).length = (colValsRaw rows col).length :=
    hperm.length_eq
  refine ⟨?_, ?_, ?_⟩
  · intro hraw
    have hnil : colVals rows col = [] := by
      rw [hraw] at hperm
      exact hperm.eq_nil
    have hnone : columnSummary rows col = none := by
      simp [columnSummary, hnil]
    refine ⟨hnone, ?_⟩
    intro hmem
    rw [List.mem_map] at hmem
    obtain ⟨p, hp, hpcol⟩ := hmem
    unfold statsColumns at hp
    rw [List.mem_filterMap] at hp
    obtain ⟨c', _, heq⟩ := hp
    rw [Option.map_eq_some'] at heq
    obtain ⟨s', hs', rfl⟩ := heq
    simp only [Prod.fst] at hpcol
    rw [hpcol, hnone] at hs'
    exact Option.noConfusion hs'
  · intro s hs
    unfold columnSummary at hs
    split_ifs at hs with hzero
    injection hs with hs2
    subst hs2
    dsimp only
    have hpos : 0 < (colVals rows col).length := Nat.pos_of_ne_zero hzero
    have hminmem : (colVals rows col).getD 0 0 ∈ colValsRaw rows col :=
      hperm.mem_iff.1 (getD_mem_of_lt hpos)
    have hmaxmem :
        (colVals rows col).getD ((colVals rows col).length - 1) 0
          ∈ colValsRaw rows col :=
      hperm.mem_iff.1 (getD_mem_of_lt (Nat.sub_lt hpos one_pos))
    have hmedmem :
        (colVals rows col).getD ((colVals rows col).length / 2) 0
          ∈ colValsRaw rows col :=
      hperm.mem_iff.1 (getD_mem_of_lt (Nat.div_lt_self hpos (by norm_num)))
    refine ⟨hlen, hminmem, hmaxmem, hmedmem, ?_, ?_, ?_⟩
    · intro x hx
      have hx' : x ∈ colVals rows col := hperm.mem_iff.2 hx
      exact ⟨sorted_getD_zero_le hsorted hx', le_sorted_getD_last hsorted hx'⟩
    · rw [hperm.sum_eq, hlen]
    · rw [hlen]
  · have hv : colVals rows5 "koi_period" = [1, 2, 3, 4, 5] := by decide
    simp [columnSummary, hv]
    norm_num

/-- Witness for C8: on an empty table, the `koi_period` summary is omitted
rather than reported zero-filled. -/
theorem columnSummary_spec_witness :
    columnSummary ([] : List Row) "koi_period" = none ∧
    "koi_period" ∉ (statsColumns ([] : List Row)).map Prod.fst :=
  (columnSummary_spec [] "koi_period").1 (by decide)

/-! ## C5 and C6: histogram binning -/

/-- Every period value lands in a bin index below the bin count. -/
theorem binIdx_lt (rows : List Row) (v : ℚ) :
    binIdx rows v < histBinCount rows := by
  have hbc : 0 < histBinCount rows :=
    lt_of_lt_of_le (by norm_num) (le_max_left 5 _)
  exact lt_of_le_of_lt (min_le_left _ _) (Nat.sub_lt hbc one_pos)

/-- The sorted period values are sorted. -/
theorem periodVals_sorted (rows : List Row) :
    (periodVals rows).Sorted (· ≤ ·) :=
  List.sorted_insertionSort _ _

/-- C5 (amended).  The bin counts of the `HistogramChart` histogram sum to
the number of values that pass the histogram's own filter — finite *and
strictly positive* `period` values.  (This need not equal
`columnSummary(column).count`, which keeps non-positive values.) -/
theorem histogram_counts_sum (rows : List Row) (counts : List ℕ)
    (h : histogramOpt rows = some counts) :
    counts.sum = (periodVals rows).length := by
  unfold histogramOpt at h
  split_ifs at h
  injection h with h2
  subst h2
  exact sum_range_countP (periodVals rows) (binIdx rows) (histBinCount rows)
    (fun v _ => binIdx_lt rows v)

/-- Witness for C5 on the table whose `period` column is `[2, 5, -3]`: two
values survive the positivity filter and the bin counts sum to `2`. -/
theorem histogram_counts_sum_witness :
    histogramOpt rowsH = some (histCounts rowsH) ∧
    (histCounts rowsH).sum = (periodVals rowsH).length ∧
    (periodVals rowsH).length = 2 := by
  have hne : ¬ (periodVals rowsH).length = 0 := by decide
  have hopt : histogramOpt rowsH = some (histCounts rowsH) := by
    unfold histogramOpt
    rw [if_neg hne]
  exact ⟨hopt, histogram_counts_sum rowsH (histCounts rowsH) hopt, by decide⟩

/-- C5 (counterexample).  On a table whose `period` and `koi_period` cells
agree row-wise with values `[-1, 2]`, the histogram bins sum to `1` (the
`-1` fails the histogram's `v > 0` filter) while the column summary, which
keeps `-1`, reports `count = 2`. -/
theorem histogram_sum_ne_summary_count :
    getNum (rowPK (-1)) "period" = getNum (rowPK (-1)) "koi_period" ∧
    getNum (rowPK 2) "period" = getNum (rowPK 2) "koi_period" ∧
    (histogramOpt rowsPK).map List.sum = some 1 ∧
    (columnSummary rowsPK "koi_period").map ColStat.count = some 2 ∧
    (some 1 : Option ℕ) ≠ some 2 := by
  have hpv : (periodVals rowsPK).length = 1 := by decide
  have hsum : (histCounts rowsPK).sum = (periodVals rowsPK).length :=
    sum_range_countP (periodVals rowsPK) (binIdx rowsPK) (histBinCount rowsPK)
      (fun v _ => binIdx_lt rowsPK v)
  have hclen : (colVals rowsPK "koi_period").length = 2 := by decide
  refine ⟨by decide, by decide, ?_, ?_, by decide⟩
  · unfold histogramOpt
    rw [if_neg (by decide)]
    rw [Option.map_some']
    rw [hsum, hpv]
  · unfold columnSummary
    rw [if_neg (by decide)]
    rw [Option.map_some']
    dsimp only
    rw [hclen]

/-- C6 (amended).  The `HistogramChart` histogram (square-root bin policy)
guards the degenerate range: its width is always positive, and when every
filtered value is equal the width is the fallback `1`, all values land in
bin `0`, and the counts still sum to the number of values.  The fixed-20-bin
`histogramData` variant of the `DownloadButton.tsx` file has no such guard
(see the counterexample). -/
theorem histogram_degenerate_range (rows : List Row) (c : ℚ)
    (h1 : periodVals rows ≠ []) :
    0 < histWidth rows ∧
    ((∀ v ∈ periodVals rows, v = c) →
      histWidth rows = 1 ∧
      (histCounts rows).get? 0 = some (periodVals rows).length ∧
      (histCounts rows).sum = (periodVals rows).length) := by
  have hpos : 0 < (periodVals rows).length := List.length_pos.2 h1
  have hbc : 0 < histBinCount rows :=
    lt_of_lt_of_le (by norm_num) (le_max_left 5 _)
  have hminmem : histMin rows ∈ periodVals rows := getD_mem_of_lt hpos
  have hmaxmem : histMax rows ∈ periodVals rows :=
    getD_mem_of_lt (Nat.sub_lt hpos one_pos)
  constructor
  · have hle : histMin rows ≤ histMax rows :=
      le_sorted_getD_last (periodVals_sorted rows) hminmem
    unfold histWidth
    split_ifs with hw
    · norm_num
    · rcases lt_or_eq_of_le hle with hlt | heq
      · apply div_pos (by linarith) (by exact_mod_cast hbc)
      · exact absurd (by rw [← heq]; ring) hw
  · intro hall
    have hminc : histMin rows = c := hall _ hminmem
    have hmaxc : histMax rows = c := hall _ hmaxmem
    have hw1 : histWidth rows = 1 := by
      unfold histWidth
      rw [hminc, hmaxc]
      simp
    have hidx : ∀ v ∈ periodVals rows, binIdx rows v = 0 := by
      intro v hv
      unfold binIdx
      rw [hall v hv, hminc, hw1]
      simp
    refine ⟨hw1, ?_, ?_⟩
    · unfold histCounts
      rw [List.get?_map, List.get?_range hbc]
      simp only [Option.map_some']
      congr 1
      rw [List.countP_eq_length]
      intro v hv
      simpa using hidx v hv
    · exact sum_range_countP (periodVals rows) (binIdx rows)
        (histBinCount rows) (fun v _ => binIdx_lt rows v)

/-- Witness for C6 on Scenario C's column `[10, 10, 10]`: width `1`, all
three values in bin `0`. -/
theorem histogram_degenerate_range_witness :
    periodVals rows10 ≠ [] ∧ 0 < histWidth rows10 ∧ histWidth rows10 = 1 ∧
    (histCounts rows10).get? 0 = some (periodVals rows10).length ∧
    (histCounts rows10).sum = (periodVals rows10).length := by
  have h := histogram_degenerate_range rows10 10 (by decide)
  have h2 := h.2 (by decide)
  exact ⟨by decide, h.1, h2.1, h2.2.1, h2.2.2⟩

/-- C6 (counterexample).  The fixed-20-bin `histogramData` of the
`DownloadButton.tsx` file computes `binWidth = 0` on the degenerate column
`[10, 10, 10]`; the bin index `Math.min(19, Math.floor((v - min) / 0))` is
then `NaN`, `histogram[NaN]++` increments no bin, and all twenty counts stay
`0` — the three values do *not* land in bin `0`. -/
theorem histogram20_degenerate_no_bin :
    validPeriods20 rows10k = [10, 10, 10] ∧
    binWidth20 rows10k = 0 ∧
    (histogramData20 rows10k).map (fun b => b.2.2) = List.replicate 20 0 ∧
    (((histogramData20 rows10k).map (fun b => b.2.2)).sum = 0 ∧ (0 : ℕ) ≠ 3) := by
  have hvp : validPeriods20 rows10k = [10, 10, 10] := by decide
  have hbw : binWidth20 rows10k = 0 := by
    unfold binWidth20 min20
    rw [hvp]
    norm_num
  have hidx : ∀ v : ℚ, binIdx20 rows10k v = none := by
    intro v
    unfold binIdx20
    rw [if_pos hbw]
  have hcount : ∀ i : ℕ,
      (validPeriods20 rows10k).countP
        (fun v => decide (binIdx20 rows10k v = some i)) = 0 := by
    intro i
    apply List.countP_eq_zero.mpr
    intro v _
    simp [hidx v]
  have hmap : (histogramData20 rows10k).map (fun b => b.2.2)
      = List.replicate 20 0 := by
    unfold histogramData20
    rw [if_neg (by rw [hvp]; decide)]
    rw [List.map_map]
    have : ((fun b : ℚ × ℚ × ℕ => b.2.2) ∘
        (fun (i : ℕ) => (min20 rows10k + (i : ℚ) * binWidth20 rows10k,
          min20 rows10k + ((i : ℚ) + 1) * binWidth20 rows10k,
          (validPeriods20 rows10k).countP
            (fun v => decide (binIdx20 rows10k v = some i)))))
        = fun i => (validPeriods20 rows10k).countP
            (fun v => decide (binIdx20 rows10k v = some i)) := rfl
    rw [this]
    have : (List.range 20).map
        (fun i => (validPeriods20 rows10k).countP
          (fun v => decide (binIdx20 rows10k v = some i)))
        = (List.range 20).map (fun _ => 0) := by
      apply List.map_congr_left
      intro i _
      exact hcount i
    rw [this]
    simp [List.map_const]
  refine ⟨hvp, hbw, hmap, ?_, by norm_num⟩
  rw [hmap]
  simp

/-! ## C7: scatter normalization -/

/-- C7 (amended).  In `DataExploration.tsx`'s `ScatterPlot` the denominators
are `Math.max(..., 1) ≥ 1`, so every retained point gets a finite normalized
coordinate (never `NaN`), and when every retained `x` (resp. `y`) is `0`
every point lands at horizontal (resp. vertical) offset `0`.  The
`scatterData` variant of the `DownloadButton.tsx` file lacks the floor of
`1` (see the counterexample). -/
theorem scatter_norm_no_nan (rows : List Row) :
    1 ≤ scatterMaxX rows ∧ 1 ≤ scatterMaxY rows ∧
    (∀ p ∈ scatterPts rows,
      scatterNormX rows p = JsNum.num (p.1 / scatterMaxX rows * 320) ∧
      scatterNormY rows p = JsNum.num (p.2.1 / scatterMaxY rows * 180)) ∧
    ((∀ p ∈ scatterPts rows, p.1 = 0) →
      ∀ p ∈ scatterPts rows, scatterNormX rows p = JsNum.num 0) ∧
    ((∀ p ∈ scatterPts rows, p.2.1 = 0) →
      ∀ p ∈ scatterPts rows, scatterNormY rows p = JsNum.num 0) := by
  have hx : 1 ≤ scatterMaxX rows := le_foldr_max
  have hy : 1 ≤ scatterMaxY rows := le_foldr_max
  have hxne : scatterMaxX rows ≠ 0 := by linarith
  have hyne : scatterMaxY rows ≠ 0 := by linarith
  refine ⟨hx, hy, ?_, ?_, ?_⟩
  · intro p _
    constructor
    · simp [scatterNormX, jsDiv, jsMulC, hxne]
    · simp [scatterNormY, jsDiv, jsMulC, hyne]
  · intro hall p hp
    simp [scatterNormX, jsDiv, jsMulC, hxne, hall p hp]
  · intro hall p hp
    simp [scatterNormY, jsDiv, jsMulC, hyne, hall p hp]

/-- A one-row table whose `period` and `radius` cells are both `0`. -/
def rowsSC : List Row :=
  [⟨[("period", some 0), ("radius", some 0)], some "CONFIRMED", none, none,
    none, none⟩]

/-- Witness for C7 on a table whose only retained point is `(0, 0)`: the
normalized offsets are `0`, not `NaN`. -/
theorem scatter_norm_no_nan_witness :
    ((0, 0, "CONFIRMED") : ℚ × ℚ × String) ∈ scatterPts rowsSC ∧
    scatterNormX rowsSC (0, 0, "CONFIRMED") = JsNum.num 0 ∧
    scatterNormY rowsSC (0, 0, "CONFIRMED") = JsNum.num 0 := by
  refine ⟨by decide, ?_, ?_⟩
  · exact (scatter_norm_no_nan rowsSC).2.2.2.1 (by decide) _ (by decide)
  · exact (scatter_norm_no_nan rowsSC).2.2.2.2 (by decide) _ (by decide)

/-- A one-row table whose `Period (days)` and `Radius (R⊕)` cells are `0`. -/
def rowZ : Row :=
  ⟨[("Period (days)", some 0), ("Radius (R⊕)", some 0)], some "CONFIRMED",
   none, none, none, none⟩

/-- C7 (counterexample).  The `scatterData` variant of the
`DownloadButton.tsx` file computes `maxX` with no floor of `1`: on a table
whose only retained point has `x = 0`, the denominator is `0` and the
normalized coordinate is `0 / 0 = NaN`, not `0`. -/
theorem scatterDL_all_zero_is_nan :
    scatterDataDL [rowZ] = [(0, 0, some "CONFIRMED")] ∧
    scatterMaxXDL [rowZ] = 0 ∧
    scatterNormXDL [rowZ] (0, 0, some "CONFIRMED") = JsNum.nan ∧
    JsNum.nan ≠ JsNum.num 0 := by
  decide

/-! ## C1: per-label counts versus the number of rows -/

/-- C1 (corrected).  The `stats.dispositions` aggregation of
`DataExploration.tsx` keys every row by its uppercased token (`"Unknown"`
when absent), so its per-key counts always sum to `rows.length`.  The
`dispositionCounts` aggregation of `ClassificationResults`, however, only
tracks the three recognized labels: its entries sum to the number of rows
whose token is `CONFIRMED`, `CANDIDATE` or `FALSE POSITIVE`, which is at
most — and not always equal to — the number of rows. -/
theorem dispositions_sum_eq_length (rows : List Row) :
    dispositionsTotal rows = rows.length ∧
    dispTotalP3 (dispositionCounts rows) = rows.countP recognizedP3 ∧
    dispTotalP3 (dispositionCounts rows) ≤ rows.length := by
  refine ⟨?_, dispTotalP3_eq_countP rows, ?_⟩
  · have h := List.sum_map_count_dedup_eq_length (rows.map dispKey)
    simpa [dispositionsTotal, dispositionKeys, dispositionCount] using h
  · rw [dispTotalP3_eq_countP]
    exact List.countP_le_length _

/-- C1 (counterexample).  A table with a single row whose disposition token
is `"exploded"` has one row, yet the three per-label counts of
`dispositionCounts` all stay `0`: their sum is `0 ≠ 1`, so the aggregation
does not count every row. -/
theorem dispositionCounts_drop_unknown_tokens :
    dispTotalP3 (dispositionCounts [rowUnknownTok]) = 0 ∧
    [rowUnknownTok].length = 1 ∧ (0 : ℕ) ≠ 1 := by
  decide

/-! ## C3: the per-label percentage -/

/-- C3 (amended).  On a non-empty table the percentage rendered by
`ClassificationResults` equals `count(label) / total_rows * 100`.  (On an
empty table it is `NaN`, not `0`: there is no division-by-zero guard.) -/
theorem percentage_eq_ratio (rows : List Row) (label : String)
    (h : rows ≠ []) :
    percentage rows label =
      JsNum.num ((countFor rows label : ℚ) / (rows.length : ℚ) * 100) := by
  have hlen : (rows.length : ℚ) ≠ 0 := by
    exact_mod_cast (List.length_pos.2 h).ne'
  simp [percentage, jsDiv, jsMulC, hlen]

/-- Witness for C3 at a concrete one-row table. -/
theorem percentage_eq_ratio_witness :
    rowsOneConfirmed ≠ [] ∧
    percentage rowsOneConfirmed "CONFIRMED" =
      JsNum.num ((countFor rowsOneConfirmed "CONFIRMED" : ℚ) /
        (rowsOneConfirmed.length : ℚ) * 100) :=
  ⟨by decide, percentage_eq_ratio rowsOneConfirmed "CONFIRMED" (by decide)⟩

/-- C3 (counterexample).  On a zero-row table the computed percentage is
`(0 / 0) * 100 = NaN`, not `0`: the claimed guard does not exist in
`ClassificationResults`. -/
theorem percentage_empty_table_is_nan :
    percentage [] "CONFIRMED" = JsNum.nan ∧ JsNum.nan ≠ JsNum.num 0 := by
  decide

/-! ## C4: label canonicalization -/

/-- C4 (confirmed).  Canonicalization, as realized by the `color` switch of
`DataExploration.tsx`, is total, case-insensitive, maps the abbreviations
`CP`/`PC`/`FP` and the full-word variants to the matching label, sends
`"fp"` to `FALSE_POSITIVE`, and sends unrecognized, empty and null tokens
(such as `"exploded"`) to `UNKNOWN`; every token receives one of the four
colour classes. -/
theorem canonicalize_spec (s₁ s₂ : String) :
    (strUpper s₁ = strUpper s₂ →
      canonicalize (some s₁) = canonicalize (some s₂)) ∧
    canonicalize (some "fp") = ClassificationLabel.FALSE_POSITIVE ∧
    canonicalize (some "exploded") = ClassificationLabel.UNKNOWN ∧
    canonicalize (some "CP") = ClassificationLabel.CONFIRMED ∧
    canonicalize (some "pc") = ClassificationLabel.CANDIDATE ∧
    canonicalize (some "Confirmed") = ClassificationLabel.CONFIRMED ∧
    canonicalize (some "candidate") = ClassificationLabel.CANDIDATE ∧
    canonicalize (some "False Positive") = ClassificationLabel.FALSE_POSITIVE ∧
    canonicalize none = ClassificationLabel.UNKNOWN ∧
    canonicalize (some "") = ClassificationLabel.UNKNOWN ∧
    (∀ t : Option String,
      color t = "#10b981" ∨ color t = "#facc15" ∨ color t = "#ef4444" ∨
        color t = "#94a3b8") := by
  refine ⟨?_, by decide, by decide, by decide, by decide, by decide,
    by decide, by decide, by decide, by decide, ?_⟩
  · intro h
    unfold canonicalize color
    rw [jsOrStr_some_empty, jsOrStr_some_empty, colorStr_congr h]
  · intro t
    unfold color colorStr
    split_ifs <;> simp

/-- Witness for C4: case-insensitivity applied at the concrete pair
`"fp"` / `"FP"`. -/
theorem canonicalize_spec_witness :
    strUpper "fp" = strUpper "FP" ∧
    canonicalize (some "fp") = canonicalize (some "FP") :=
  ⟨by decide, (canonicalize_spec "fp" "FP").1 (by decide)⟩

/-! ## C2: determinism of the projected angular speed -/

/-- C2 (the code versus the claim).  The angular speed of each projected
body is `0.25 + Math.random() * 0.7`, a fresh unseeded draw on every
invocation: projecting the same one-row table during two renders in which
`Math.random()` returns `0` and `1/2` respectively yields the different
speeds `1/4` and `3/5`.  The projection is therefore *not* deterministic in
its input — `angularSpeed` is not derived from a stable per-row key. -/
theorem angularSpeed_depends_on_random_stream :
    (projectPlanets rowsOneConfirmed "CONFIRMED" (fun _ => 0)).map Planet.speed
      = [1 / 4] ∧
    (projectPlanets rowsOneConfirmed "CONFIRMED" (fun _ => 1 / 2)).map Planet.speed
      = [3 / 5] ∧
    (1 / 4 : ℚ) ≠ 3 / 5 := by
  have h1 : (projectPlanets rowsOneConfirmed "CONFIRMED" (fun _ => 0)).map
      Planet.speed = [0.25 + 0 * 0.7] := rfl
  have h2 : (projectPlanets rowsOneConfirmed "CONFIRMED" (fun _ => 1 / 2)).map
      Planet.speed = [0.25 + 1 / 2 * 0.7] := rfl
  refine ⟨?_, ?_, by norm_num⟩
  · rw [h1]
    norm_num
  · rw [h2]
    norm_num

/-! ## C9: monotonicity of the orbital radius in the period -/

/-- C9 (amended).  For two rows whose periods are both present and strictly
positive, the projected orbital radius is monotone in the period:
`periodA < periodB` implies
`orbitalRadius(A) ≤ orbitalRadius(B)`, whatever the rows' indices.  (A
present but *zero* period is falsy and takes the index-based fallback
instead, which breaks monotonicity — see the counterexample.) -/
theorem orbitalRadius_mono_of_pos (pA pB : ℚ) (iA iB : ℕ)
    (h0 : 0 < pA) (hAB : pA < pB) :
    orbitalRadiusOf (some pA) iA ≤ orbitalRadiusOf (some pB) iB := by
  have h0B : 0 < pB := lt_trans h0 hAB
  unfold orbitalRadiusOf
  dsimp only
  rw [if_neg h0.ne', if_neg h0B.ne']
  have h1 : ((pA : ℝ)) ^ (0.3 : ℝ) ≤ ((pB : ℝ)) ^ (0.3 : ℝ) := by
    apply Real.rpow_le_rpow
    · exact_mod_cast h0.le
    · exact_mod_cast hAB.le
    · norm_num
  linarith

/-- Witness for C9 at periods `1 < 8` and indices `0`, `3`. -/
theorem orbitalRadius_mono_of_pos_witness :
    (0 : ℚ) < 1 ∧ (1 : ℚ) < 8 ∧
    orbitalRadiusOf (some 1) 0 ≤ orbitalRadiusOf (some 8) 3 :=
  ⟨by norm_num, by norm_num,
   orbitalRadius_mono_of_pos 1 8 0 3 (by norm_num) (by norm_num)⟩

/-- The two-row `CONFIRMED` table with periods `0` and `1`. -/
def rowsZeroOne : List Row :=
  [⟨[("koi_period", some 0)], some "CONFIRMED", none, none, none, none⟩,
   ⟨[("koi_period", some 1)], some "CONFIRMED", none, none, none, none⟩]

/-- C9 (counterexample).  Both rows of `rowsZeroOne` have a present period
and `0 < 1`, yet the body projected from the period-`0` row (index 0) gets
the fallback orbital radius `3 + 0·1.8 = 3` while the period-`1` row gets
`1.8 + 1^0.3 = 2.8 < 3`: the orbital radius is not a non-decreasing
function of the period when a present period is `0`. -/
theorem orbitalRadius_not_mono_at_zero_period :
    periodOf (rowsZeroOne.getD 0 (rowKP 0)) = some 0 ∧
    periodOf (rowsZeroOne.getD 1 (rowKP 0)) = some 1 ∧
    (0 : ℚ) < 1 ∧
    (projectPlanets rowsZeroOne "CONFIRMED" (fun _ => 0)).map
      Planet.orbitalRadius = [3, 14 / 5] ∧
    ¬ ((3 : ℝ) ≤ 14 / 5) := by
  have hexp : (projectPlanets rowsZeroOne "CONFIRMED" (fun _ => 0)).map
      Planet.orbitalRadius = [orbitalRadiusOf (some 0) 0,
        orbitalRadiusOf (some 1) 1] := rfl
  refine ⟨by decide, by decide, by norm_num, ?_, by norm_num⟩
  rw [hexp]
  have hz : orbitalRadiusOf (some 0) 0 = 3 := by
    unfold orbitalRadiusOf
    dsimp only
    norm_num
  have ho : orbitalRadiusOf (some 1) 1 = 14 / 5 := by
    unfold orbitalRadiusOf
    dsimp only
    rw [if_neg (by norm_num)]
    push_cast
    rw [Real.one_rpow]
    norm_num
  rw [hz, ho]

/-! ## C10: truthiness conflates zero with missing -/

/-- C10 (confirmed).  The projection tests `prad` and `period` for JavaScript
truthiness, so a present `0` behaves exactly like a missing value: the body
radius is the default `0.12` (not the floor formula, whose value at `0`
would be `max(0.08, 0) = 0.08`), and the orbital radius is the index-based
fallback `3 + i·1.8` (not the power law). -/
theorem zero_fields_take_defaults (row : Row) (i : ℕ) (d : String)
    (rand : ℕ → ℚ) :
    (pradOf row = some 0 → (mkPlanet d rand i row).planetRadius = 0.12) ∧
    (pradOf row = none → (mkPlanet d rand i row).planetRadius = 0.12) ∧
    ((0.12 : ℚ) ≠ max 0.08 (0 * 0.05)) ∧
    (periodOf row = some 0 →
      (mkPlanet d rand i row).orbitalRadius = 3 + (i : ℝ) * 1.8) ∧
    (periodOf row = none →
      (mkPlanet d rand i row).orbitalRadius = 3 + (i : ℝ) * 1.8) := by
  have hbody : (mkPlanet d rand i row).planetRadius
      = bodyRadiusOf (pradOf row) := rfl
  have horb : (mkPlanet d rand i row).orbitalRadius
      = orbitalRadiusOf (periodOf row) i := rfl
  refine ⟨?_, ?_, by norm_num, ?_, ?_⟩
  · intro h
    rw [hbody, h]
    norm_num [bodyRadiusOf]
  · intro h
    rw [hbody, h]
    simp [bodyRadiusOf]
  · intro h
    rw [horb, h]
    norm_num [orbitalRadiusOf]
  · intro h
    rw [horb, h]
    simp [orbitalRadiusOf]

/-- A `CONFIRMED` row whose `koi_prad` and `koi_period` cells are both `0`. -/
def rowZeros : Row :=
  ⟨[("koi_prad", some 0), ("koi_period", some 0)], some "CONFIRMED", none,
   none, none, none⟩

/-- Witness for C10 at a concrete row with zero radius and period, mapped at
index `2`. -/
theorem zero_fields_take_defaults_witness :
    pradOf rowZeros = some 0 ∧ periodOf rowZeros = some 0 ∧
    (mkPlanet "CONFIRMED" (fun _ => 0) 2 rowZeros).planetRadius = 0.12 ∧
    (mkPlanet "CONFIRMED" (fun _ => 0) 2 rowZeros).orbitalRadius
      = 3 + ((2 : ℕ) : ℝ) * 1.8 :=
  ⟨by decide, by decide,
   (zero_fields_take_defaults rowZeros 2 "CONFIRMED" (fun _ => 0)).1
     (by decide),
   (zero_fields_take_defaults rowZeros 2 "CONFIRMED" (fun _ => 0)).2.2.2.1
     (by decide)⟩

end NovaTrace
